import Mathlib

/-!
Shallow embedding of the thin Reddit-sentiment aggregation layer of this
repository: `RedditSentimentClient` (example/stock_agent_drop_in.py) and
`StockSentimentScraper` (example/stock_sentiment_scraper.py).

Modelling choices:
- A Python dict is an insertion-ordered association list with unique keys;
  `d[k] = v` replaces the value in place when `k` is present and appends
  `(k, v)` otherwise (`pySet`); `d.get(k, dflt)` is `pyGetD`.
- A post record from the external collaborator (YARS) is an arbitrary
  string-keyed, string-valued dict (`Post`).
- The external collaborator is a record of three functions (`Miner`); a
  Python exception raised by a collaborator call is `Except.error`.
- Wall-clock effects are ghost state: every method also returns the ordered
  list of `Event`s of its execution, `Event.collab d ok` for a collaborator
  call (with its request descriptor and whether it returned without
  raising) and `Event.delay` for one `_rate_limit_delay` / `time.sleep`
  invocation.  An exception caught inside a method never appears in the
  result type: methods are total, which embeds the fact that no exception
  escapes to the caller.
- `min_delay` (`60.0 / rate_limit`) is modelled exactly in `Rat`;
  `timestamp` fields (wall-clock strings) are omitted as no claim
  mentions them.
-/

set_option autoImplicit false

namespace StockAgent

/-- A collaborator post: a Python dict with string keys and values. -/
abbrev Post := List (String × String)

/-- Python `d.get(k)`: first (and in a real dict, only) binding of `k`. -/
def pyGet {α : Type} : List (String × α) → String → Option α
  | [], _ => none
  | (k', v) :: rest, k => if k' = k then some v else pyGet rest k

/-- Python `d.get(k, dflt)`. -/
def pyGetD {α : Type} (m : List (String × α)) (k : String) (dflt : α) : α :=
  (pyGet m k).getD dflt

/-- Python `d[k] = v`: replace in place if `k` is bound, else append. -/
def pySet {α : Type} : List (String × α) → String → α → List (String × α)
  | [], k, v => [(k, v)]
  | (k', v') :: rest, k, v =>
    if k' = k then (k', v) :: rest else (k', v') :: pySet rest k v

/-- Python `d[k] = d.get(k, 0) + 1` on a counter dict. -/
def bump : List (String × Nat) → String → List (String × Nat)
  | [], k => [(k, 1)]
  | (k', v) :: rest, k =>
    if k' = k then (k', v + 1) :: rest else (k', v) :: bump rest k

/-- Sum of the values of a counter dict. -/
def sumCounts (m : List (String × Nat)) : Nat :=
  (m.map Prod.snd).sum

/-- Ghost trace events: one collaborator call (request descriptor, whether
it returned without raising), or one rate-limit sleep. -/
inductive Event where
  | collab (desc : String) (ok : Bool)
  | delay
  deriving DecidableEq, Repr

/-- Number of rate-limit sleeps in a trace. -/
def numDelays (t : List Event) : Nat :=
  (t.filter fun e => match e with | .delay => true | _ => false).length

/-- Number of collaborator calls issued in a trace. -/
def numCalls (t : List Event) : Nat :=
  (t.filter fun e => match e with | .collab _ _ => true | _ => false).length

/-- Number of collaborator calls in a trace that returned without raising. -/
def numOkCalls (t : List Event) : Nat :=
  (t.filter fun e => match e with | .collab _ ok => ok | _ => false).length

/-- Request descriptors of the collaborator calls in a trace, in order. -/
def calledSubs (t : List Event) : List String :=
  t.filterMap fun e => match e with | .collab d _ => some d | _ => none

/-- Does an `Except` hold an error (did the Python call raise)? -/
def isErr {ε α : Type} : Except ε α → Bool
  | .error _ => true
  | .ok _ => false

/-- The external YARS scraper, opaque: each operation either returns posts
or raises. `fetch_subreddit_posts subreddit limit category time_filter`,
`search_subreddit subreddit query limit sort`, `scrape_post_details permalink`. -/
structure Miner where
  fetch_subreddit_posts : String → Nat → String → String → Except String (List Post)
  search_subreddit : String → String → Nat → String → Except String (List Post)
  scrape_post_details : String → Except String Post

/-- The recognized keys of the `social_sentiment` config dict; `none`
means the key is absent. -/
structure ClientConfig where
  reddit_enabled : Option Bool := none
  subreddits : Option (List String) := none
  rate_limit_per_minute : Option Int := none

/-- State of a constructed `RedditSentimentClient`. -/
structure RedditSentimentClient where
  enabled : Bool
  subreddits : List String
  rate_limit : Int
  min_delay : Rat
  miner : Miner

/-- `RedditSentimentClient.__init__`:
`enabled = config.get('reddit_enabled', True)`,
`subreddits = config.get('subreddits', ['wallstreetbets', 'stocks'])`,
`rate_limit = config.get('rate_limit_per_minute', 30)`,
`min_delay = 60.0 / rate_limit if rate_limit > 0 else 2.0`. -/
def mkClient (config : ClientConfig) (miner : Miner) : RedditSentimentClient :=
  let rate_limit := config.rate_limit_per_minute.getD 30
  { enabled := config.reddit_enabled.getD true
    subreddits := config.subreddits.getD ["wallstreetbets", "stocks"]
    rate_limit := rate_limit
    min_delay := if rate_limit > 0 then 60 / (rate_limit : Rat) else 2
    miner := miner }

/-- `get_subreddit_posts`: forward to the collaborator, sleep once after a
successful call, catch any exception and return `[]`. -/
def get_subreddit_posts (c : RedditSentimentClient) (subreddit : String)
    (limit : Nat) (category : String) (time_filter : String) :
    List Post × List Event :=
  if !c.enabled then ([], [])
  else
    match c.miner.fetch_subreddit_posts subreddit limit category time_filter with
    | .ok posts => (posts, [.collab subreddit true, .delay])
    | .error _ => ([], [.collab subreddit false])

/-- The subreddit list `search_ticker` / `get_multi_subreddit_posts`
iterate: the argument when given, the configured list when `None`. -/
def effectiveSubs (c : RedditSentimentClient) (subreddits : Option (List String)) :
    List String :=
  match subreddits with
  | none => c.subreddits
  | some l => l

/-- The per-post tagging in `search_ticker`:
`post['subreddit'] = sub; post['ticker_searched'] = ticker`. -/
def tagPost (p : Post) (sub ticker : String) : Post :=
  pySet (pySet p "subreddit" sub) "ticker_searched" ticker

/-- The `for sub in subreddits` loop body of `search_ticker`: on success,
tag and collect the posts and sleep; on exception, log and continue. -/
def searchLoop (m : Miner) (ticker : String) (lim : Nat) :
    List String → List Post × List Event
  | [] => ([], [])
  | sub :: rest =>
    let step : List Post × List Event :=
      match m.search_subreddit sub ticker lim "relevance" with
      | .ok posts => (posts.map (fun p => tagPost p sub ticker),
                      [.collab sub true, .delay])
      | .error _ => ([], [.collab sub false])
    let restRes := searchLoop m ticker lim rest
    (step.1 ++ restRes.1, step.2 ++ restRes.2)

/-- `search_ticker`: flatten the tagged per-subreddit results over the
given or configured subreddit list. -/
def search_ticker (c : RedditSentimentClient) (ticker : String)
    (subreddits : Option (List String)) (limit_per_subreddit : Nat) :
    List Post × List Event :=
  if !c.enabled then ([], [])
  else searchLoop c.miner ticker limit_per_subreddit (effectiveSubs c subreddits)

/-- `get_post_details`: forward to the collaborator, sleep after success,
return `None` when disabled or on exception. -/
def get_post_details (c : RedditSentimentClient) (permalink : String) :
    Option Post × List Event :=
  if !c.enabled then (none, [])
  else
    match c.miner.scrape_post_details permalink with
    | .ok details => (some details, [.collab permalink true, .delay])
    | .error _ => (none, [.collab permalink false])

/-- The `for sub in subreddits` loop of `get_multi_subreddit_posts`:
`results[sub] = posts` only `if posts`. -/
def multiLoop (c : RedditSentimentClient) (lim : Nat) (category : String) :
    List String → List (String × List Post) → List Event →
    List (String × List Post) × List Event
  | [], acc, ev => (acc, ev)
  | sub :: rest, acc, ev =>
    let r := get_subreddit_posts c sub lim category "day"
    multiLoop c lim category rest
      (if r.1.isEmpty then acc else pySet acc sub r.1) (ev ++ r.2)

/-- `get_multi_subreddit_posts`: per-subreddit batches, empty batches
omitted from the mapping. -/
def get_multi_subreddit_posts (c : RedditSentimentClient)
    (subreddits : Option (List String)) (limit_per_sub : Nat)
    (category : String) : List (String × List Post) × List Event :=
  if !c.enabled then ([], [])
  else multiLoop c limit_per_sub category (effectiveSubs c subreddits) [] []

/-- One entry of the `get_sentiment_data` result (the `timestamp` field,
a wall-clock string, is omitted). -/
structure TickerReport where
  ticker : String
  total_mentions : Nat
  posts : List Post
  by_subreddit : List (String × Nat)
  deriving DecidableEq, Repr

/-- The `for post in posts` counting loop of `get_sentiment_data`:
group by `post.get('subreddit', 'unknown')`. -/
def countBySubreddit : List Post → List (String × Nat) → List (String × Nat)
  | [], acc => acc
  | p :: rest, acc => countBySubreddit rest (bump acc (pyGetD p "subreddit" "unknown"))

/-- The report `get_sentiment_data` builds for one ticker. -/
def mkTickerReport (ticker : String) (posts : List Post) : TickerReport :=
  { ticker := ticker
    total_mentions := posts.length
    posts := posts
    by_subreddit := countBySubreddit posts [] }

/-- The `for ticker in tickers` loop of `get_sentiment_data`. -/
def sentimentLoop (c : RedditSentimentClient) (lim : Nat) :
    List String → List (String × TickerReport) → List Event →
    List (String × TickerReport) × List Event
  | [], acc, ev => (acc, ev)
  | t :: rest, acc, ev =>
    let r := search_ticker c t none lim
    sentimentLoop c lim rest (pySet acc t (mkTickerReport t r.1)) (ev ++ r.2)

/-- `get_sentiment_data`: one `TickerReport` per ticker, each built from a
`search_ticker` call over the configured subreddits. -/
def get_sentiment_data (c : RedditSentimentClient) (tickers : List String)
    (limit_per_ticker : Nat) : List (String × TickerReport) × List Event :=
  if !c.enabled then ([], [])
  else sentimentLoop c limit_per_ticker tickers [] []

/-- The fixed subreddit list hard-coded in `StockSentimentScraper.__init__`. -/
def stock_subreddits : List String :=
  ["wallstreetbets", "stocks", "investing", "stockmarket", "options"]

/-- `StockSentimentScraper`: the collaborator plus the fixed subreddit list. -/
structure StockSentimentScraper where
  miner : Miner

/-- The result dict of `scrape_ticker_sentiment` (the `timestamp` field,
a wall-clock string, is omitted). -/
structure ScrapeResult where
  ticker : String
  total_posts : Nat
  by_subreddit : List (String × Nat)
  all_posts : List Post
  deriving DecidableEq, Repr

/-- The per-post tagging in `scrape_ticker_sentiment`:
the dict literal spread with the keys `subreddit` and `ticker` set. -/
def scrapeTagPost (p : Post) (sub ticker : String) : Post :=
  pySet (pySet p "subreddit" sub) "ticker" ticker

/-- The `for subreddit in self.stock_subreddits` loop of
`scrape_ticker_sentiment`: on nonempty success record the count, add to the
total and extend the tagged posts; on empty success or exception, skip. -/
def scrapeLoop (m : Miner) (ticker : String) (max_posts : Nat) :
    List String → ScrapeResult → ScrapeResult
  | [], res => res
  | sub :: rest, res =>
    let res' :=
      match m.search_subreddit sub ticker max_posts "relevance" with
      | .ok posts =>
        if posts.isEmpty then res
        else
          { res with
            by_subreddit := pySet res.by_subreddit sub posts.length
            total_posts := res.total_posts + posts.length
            all_posts := res.all_posts ++ posts.map (fun p => scrapeTagPost p sub ticker) }
      | .error _ => res
    scrapeLoop m ticker max_posts rest res'

/-- `scrape_ticker_sentiment`: aggregate over the fixed subreddit list. -/
def scrape_ticker_sentiment (s : StockSentimentScraper) (ticker : String)
    (max_posts : Nat) : ScrapeResult :=
  scrapeLoop s.miner ticker max_posts stock_subreddits
    { ticker := ticker, total_posts := 0, by_subreddit := [], all_posts := [] }

/-! ### Shared helper lemmas -/

theorem pyGet_pySet_same {α : Type} (m : List (String × α)) (k : String) (v : α) :
    pyGet (pySet m k v) k = some v := by
  induction m with
  | nil => simp [pyGet, pySet]
  | cons kv rest ih =>
    obtain ⟨k', v'⟩ := kv
    by_cases h : k' = k <;> simp [pyGet, pySet, h, ih]

theorem pyGet_pySet_ne {α : Type} (m : List (String × α)) (k k' : String) (v : α)
    (h : k' ≠ k) : pyGet (pySet m k v) k' = pyGet m k' := by
  have hks : ¬k = k' := fun hh => h hh.symm
  induction m with
  | nil => simp [pyGet, pySet, hks]
  | cons kv rest ih =>
    obtain ⟨k0, v0⟩ := kv
    by_cases h0 : k0 = k
    · subst h0
      simp [pyGet, pySet, hks]
    · simp only [pySet, if_neg h0, pyGet]
      by_cases h1 : k0 = k' <;> simp [h1, ih]

theorem mem_pySet {α : Type} (m : List (String × α)) (k : String) (v : α)
    (kv : String × α) (h : kv ∈ pySet m k v) : kv ∈ m ∨ kv = (k, v) := by
  induction m with
  | nil => simpa [pySet] using h
  | cons hd rest ih =>
    obtain ⟨k0, v0⟩ := hd
    by_cases h0 : k0 = k
    · subst h0
      rcases (by simpa [pySet] using h : kv = (k0, v) ∨ kv ∈ rest) with h1 | h1
      · exact Or.inr h1
      · exact Or.inl (List.mem_cons_of_mem _ h1)
    · rcases (by simpa [pySet, h0] using h : kv = (k0, v0) ∨ kv ∈ pySet rest k v) with h1 | h1
      · exact Or.inl (by simp [h1])
      · rcases ih h1 with h2 | h2
        · exact Or.inl (List.mem_cons_of_mem _ h2)
        · exact Or.inr h2

theorem pySet_of_pyGet_none {α : Type} (m : List (String × α)) (k : String) (v : α)
    (h : pyGet m k = none) : pySet m k v = m ++ [(k, v)] := by
  induction m with
  | nil => simp [pySet]
  | cons hd rest ih =>
    obtain ⟨k0, v0⟩ := hd
    by_cases h0 : k0 = k
    · simp [pyGet, h0] at h
    · simp only [pyGet, if_neg h0] at h
      simp [pySet, h0, ih h]

theorem sumCounts_append (m₁ m₂ : List (String × Nat)) :
    sumCounts (m₁ ++ m₂) = sumCounts m₁ + sumCounts m₂ := by
  simp [sumCounts]

theorem sumCounts_bump (m : List (String × Nat)) (k : String) :
    sumCounts (bump m k) = sumCounts m + 1 := by
  induction m with
  | nil => simp [bump, sumCounts]
  | cons hd rest ih =>
    obtain ⟨k0, v0⟩ := hd
    by_cases h0 : k0 = k
    · simp [bump, h0, sumCounts]
      omega
    · simp [bump, h0, sumCounts] at ih ⊢
      omega

theorem sumCounts_countBySubreddit (ps : List Post) (acc : List (String × Nat)) :
    sumCounts (countBySubreddit ps acc) = sumCounts acc + ps.length := by
  induction ps generalizing acc with
  | nil => simp [countBySubreddit]
  | cons p rest ih =>
    simp only [countBySubreddit, ih, sumCounts_bump, List.length_cons]
    omega

theorem numDelays_append (t₁ t₂ : List Event) :
    numDelays (t₁ ++ t₂) = numDelays t₁ + numDelays t₂ := by
  simp [numDelays]

theorem numCalls_append (t₁ t₂ : List Event) :
    numCalls (t₁ ++ t₂) = numCalls t₁ + numCalls t₂ := by
  simp [numCalls]

theorem numOkCalls_append (t₁ t₂ : List Event) :
    numOkCalls (t₁ ++ t₂) = numOkCalls t₁ + numOkCalls t₂ := by
  simp [numOkCalls]

theorem calledSubs_append (t₁ t₂ : List Event) :
    calledSubs (t₁ ++ t₂) = calledSubs t₁ ++ calledSubs t₂ := by
  simp [calledSubs]

theorem calledSubs_nil : calledSubs [] = [] := rfl

theorem calledSubs_cons_collab (d : String) (ok : Bool) (t : List Event) :
    calledSubs (Event.collab d ok :: t) = d :: calledSubs t := rfl

theorem calledSubs_cons_delay (t : List Event) :
    calledSubs (Event.delay :: t) = calledSubs t := rfl

theorem numDelays_nil : numDelays [] = 0 := rfl

theorem numDelays_cons_collab (d : String) (ok : Bool) (t : List Event) :
    numDelays (Event.collab d ok :: t) = numDelays t := by
  simp [numDelays]

theorem numDelays_cons_delay (t : List Event) :
    numDelays (Event.delay :: t) = numDelays t + 1 := by
  simp [numDelays]

theorem numCalls_nil : numCalls [] = 0 := rfl

theorem numCalls_cons_collab (d : String) (ok : Bool) (t : List Event) :
    numCalls (Event.collab d ok :: t) = numCalls t + 1 := by
  simp [numCalls]

theorem numCalls_cons_delay (t : List Event) :
    numCalls (Event.delay :: t) = numCalls t := by
  simp [numCalls]

theorem numOkCalls_nil : numOkCalls [] = 0 := rfl

theorem numOkCalls_cons_collab_true (d : String) (t : List Event) :
    numOkCalls (Event.collab d true :: t) = numOkCalls t + 1 := by
  simp [numOkCalls]

theorem numOkCalls_cons_collab_false (d : String) (t : List Event) :
    numOkCalls (Event.collab d false :: t) = numOkCalls t := by
  simp [numOkCalls]

theorem numOkCalls_cons_delay (t : List Event) :
    numOkCalls (Event.delay :: t) = numOkCalls t := by
  simp [numOkCalls]

/-! ### Concrete collaborators and clients for witnesses and counterexamples -/

/-- A concrete collaborator post. -/
def demoPost : Post := [("title", "a"), ("score", "5")]

/-- A collaborator that always succeeds with one post. -/
def demoMiner : Miner :=
  { fetch_subreddit_posts := fun _ _ _ _ => .ok [demoPost]
    search_subreddit := fun _ _ _ _ => .ok [demoPost]
    scrape_post_details := fun _ => .ok demoPost }

/-- An enabled client over `demoMiner` with one configured subreddit. -/
def demoClient : RedditSentimentClient :=
  { enabled := true, subreddits := ["stocks"], rate_limit := 30
    min_delay := 2, miner := demoMiner }

/-- A disabled client (`reddit_enabled = false`). -/
def offClient : RedditSentimentClient :=
  { enabled := false, subreddits := ["stocks"], rate_limit := 30
    min_delay := 2, miner := demoMiner }

/-- A collaborator that raises on every call. -/
def failMiner : Miner :=
  { fetch_subreddit_posts := fun _ _ _ _ => .error "boom"
    search_subreddit := fun _ _ _ _ => .error "boom"
    scrape_post_details := fun _ => .error "boom" }

/-- An enabled client whose collaborator raises on every call. -/
def failClient : RedditSentimentClient :=
  { enabled := true, subreddits := ["stocks"], rate_limit := 30
    min_delay := 2, miner := failMiner }

/-! ### Claim theorems -/

/-- C3: for a client constructed with the enabled flag false, every public
fetch method returns an empty sequence/mapping (or absent result) with an
empty trace, i.e. without invoking the external collaborator at all. -/
theorem C3_disabled_client_returns_empty (c : RedditSentimentClient)
    (h : c.enabled = false) (sub permalink category time_filter ticker : String)
    (lim : Nat) (subs : Option (List String)) (tickers : List String) :
    get_subreddit_posts c sub lim category time_filter = ([], []) ∧
    search_ticker c ticker subs lim = ([], []) ∧
    get_post_details c permalink = (none, []) ∧
    get_multi_subreddit_posts c subs lim category = ([], []) ∧
    get_sentiment_data c tickers lim = ([], []) := by
  refine ⟨?_, ?_, ?_, ?_, ?_⟩ <;>
    simp [get_subreddit_posts, search_ticker, get_post_details,
      get_multi_subreddit_posts, get_sentiment_data, h]

/-- Witness for C3 at a concrete disabled client. -/
theorem C3_disabled_client_returns_empty_witness :
    offClient.enabled = false ∧
    (get_subreddit_posts offClient "stocks" 5 "hot" "day" = ([], []) ∧
     search_ticker offClient "TSLA" none 5 = ([], []) ∧
     get_post_details offClient "/r/stocks/comments/1" = (none, []) ∧
     get_multi_subreddit_posts offClient none 5 "hot" = ([], []) ∧
     get_sentiment_data offClient ["TSLA"] 5 = ([], [])) :=
  ⟨rfl, C3_disabled_client_returns_empty offClient rfl "stocks"
    "/r/stocks/comments/1" "hot" "day" "TSLA" 5 none ["TSLA"]⟩

/-- C6: the computed minimum delay is `60/r` for a configured rate `r > 0`
and `2.0` when `r ≤ 0` or the `rate_limit_per_minute` key is absent (the
absent case goes through the default rate 30, and `60/30 = 2`). -/
theorem C6_min_delay_formula (config : ClientConfig) (miner : Miner) :
    (∀ r : Int, config.rate_limit_per_minute = some r → 0 < r →
      (mkClient config miner).min_delay = 60 / (r : Rat)) ∧
    (∀ r : Int, config.rate_limit_per_minute = some r → r ≤ 0 →
      (mkClient config miner).min_delay = 2) ∧
    (config.rate_limit_per_minute = none → (mkClient config miner).min_delay = 2) := by
  refine ⟨?_, ?_, ?_⟩
  · intro r hr hpos
    simp only [mkClient, hr, Option.getD_some]
    rw [if_pos hpos]
  · intro r hr hnonpos
    simp only [mkClient, hr, Option.getD_some]
    rw [if_neg (by omega)]
  · intro hr
    simp only [mkClient, hr, Option.getD_none]
    norm_num

/-- Witness for C6 at the rates 30, -5 and absent. -/
theorem C6_min_delay_formula_witness :
    (mkClient { rate_limit_per_minute := some 30 } demoMiner).min_delay
      = 60 / ((30 : Int) : Rat) ∧
    (mkClient { rate_limit_per_minute := some (-5) } demoMiner).min_delay = 2 ∧
    (mkClient { } demoMiner).min_delay = 2 :=
  ⟨(C6_min_delay_formula _ demoMiner).1 30 rfl (by norm_num),
   (C6_min_delay_formula _ demoMiner).2.1 (-5) rfl (by norm_num),
   (C6_min_delay_formula _ demoMiner).2.2 rfl⟩

/-- The loop of `search_ticker` issues exactly one collaborator call per
iterated subreddit, in the list's order. -/
theorem calledSubs_searchLoop (m : Miner) (ticker : String) (lim : Nat)
    (subs : List String) :
    calledSubs (searchLoop m ticker lim subs).2 = subs := by
  induction subs with
  | nil => simp [searchLoop, calledSubs]
  | cons sub rest ih =>
    simp only [searchLoop]
    cases h : m.search_subreddit sub ticker lim "relevance" <;>
      simp [h, calledSubs_append, calledSubs_cons_collab, calledSubs_cons_delay,
        calledSubs_nil, ih]

/-- C9: `search_ticker` with `subreddits = None` on an enabled client
queries exactly the configured subreddit list, in its configured order. -/
theorem C9_default_subreddit_order (c : RedditSentimentClient) (ticker : String)
    (lim : Nat) (h : c.enabled = true) :
    calledSubs (search_ticker c ticker none lim).2 = c.subreddits := by
  simp [search_ticker, h, effectiveSubs, calledSubs_searchLoop]

/-- Witness for C9 at a concrete enabled client. -/
theorem C9_default_subreddit_order_witness :
    calledSubs (search_ticker demoClient "TSLA" none 5).2 = demoClient.subreddits :=
  C9_default_subreddit_order demoClient "TSLA" 5 rfl

/-- C10: `search_ticker` with an explicitly empty subreddit list returns
the empty sequence with an empty trace (no collaborator call, no delay):
the empty list does not fall back to the configured list. -/
theorem C10_explicit_empty_subreddit_list (c : RedditSentimentClient)
    (ticker : String) (lim : Nat) :
    search_ticker c ticker (some []) lim = ([], []) := by
  cases h : c.enabled <;> simp [search_ticker, h, effectiveSubs, searchLoop]

/-- Every report built by `get_sentiment_data` satisfies the counting
invariants: `total_mentions` is the number of posts and the per-subreddit
counts sum to it. -/
theorem mkTickerReport_inv (ticker : String) (posts : List Post) :
    (mkTickerReport ticker posts).total_mentions
      = (mkTickerReport ticker posts).posts.length ∧
    sumCounts (mkTickerReport ticker posts).by_subreddit
      = (mkTickerReport ticker posts).total_mentions := by
  refine ⟨rfl, ?_⟩
  simp only [mkTickerReport]
  rw [sumCounts_countBySubreddit]
  simp [sumCounts]

/-- Entries of the `get_sentiment_data` loop result come from the
accumulator or are freshly built reports. -/
theorem mem_sentimentLoop (c : RedditSentimentClient) (lim : Nat)
    (tickers : List String) (acc : List (String × TickerReport)) (ev : List Event)
    (t : String) (r : TickerReport)
    (h : (t, r) ∈ (sentimentLoop c lim tickers acc ev).1) :
    (t, r) ∈ acc ∨ ∃ ticker, r = mkTickerReport ticker (search_ticker c ticker none lim).1 := by
  induction tickers generalizing acc ev with
  | nil => exact Or.inl (by simpa [sentimentLoop] using h)
  | cons tk rest ih =>
    simp only [sentimentLoop] at h
    rcases ih _ _ h with h1 | h1
    · rcases mem_pySet _ _ _ _ h1 with h2 | h2
      · exact Or.inl h2
      · injection h2 with ht hr
        exact Or.inr ⟨tk, hr⟩
    · exact Or.inr h1

/-- The `scrape_ticker_sentiment` loop preserves the counting invariants,
provided the remaining subreddits are fresh and pairwise distinct. -/
theorem scrapeLoop_inv (m : Miner) (ticker : String) (max_posts : Nat)
    (subs : List String) (res : ScrapeResult)
    (h1 : res.total_posts = res.all_posts.length)
    (h2 : sumCounts res.by_subreddit = res.total_posts)
    (h3 : ∀ sub ∈ subs, pyGet res.by_subreddit sub = none)
    (h4 : subs.Nodup) :
    (scrapeLoop m ticker max_posts subs res).total_posts
      = (scrapeLoop m ticker max_posts subs res).all_posts.length ∧
    sumCounts (scrapeLoop m ticker max_posts subs res).by_subreddit
      = (scrapeLoop m ticker max_posts subs res).total_posts := by
  induction subs generalizing res with
  | nil => exact ⟨h1, h2⟩
  | cons sub rest ih =>
    obtain ⟨hnotmem, hnodup⟩ := List.nodup_cons.mp h4
    have h3rest : ∀ s ∈ rest, pyGet res.by_subreddit s = none :=
      fun s hs => h3 s (List.mem_cons_of_mem _ hs)
    simp only [scrapeLoop]
    cases hcall : m.search_subreddit sub ticker max_posts "relevance" with
    | error e => exact ih res h1 h2 h3rest hnodup
    | ok posts =>
      by_cases hemp : posts.isEmpty
      · simp only [hemp, if_pos]
        exact ih res h1 h2 h3rest hnodup
      · simp only [hemp, Bool.false_eq_true, if_neg, not_false_eq_true]
        have hfresh : pyGet res.by_subreddit sub = none := h3 sub (List.mem_cons_self _ _)
        apply ih
        · simp [h1]
        · show sumCounts (pySet res.by_subreddit sub posts.length)
            = res.total_posts + posts.length
          rw [pySet_of_pyGet_none _ _ _ hfresh, sumCounts_append, h2]
          simp [sumCounts]
        · intro s hs
          have hne : s ≠ sub := fun hh => hnotmem (hh ▸ hs)
          simpa [pyGet_pySet_ne _ _ _ _ hne] using h3rest s hs
        · exact hnodup

/-- C1: every ticker report of `get_sentiment_data` has `total_mentions`
equal to the length of its posts sequence and `by_subreddit` counts
summing to `total_mentions`; likewise `scrape_ticker_sentiment`'s result
has `total_posts` equal to the length of `all_posts` and `by_subreddit`
counts summing to `total_posts` — for every ticker list and every
collaborator behaviour. -/
theorem C1_report_invariants (c : RedditSentimentClient) (tickers : List String)
    (lim : Nat) (s : StockSentimentScraper) (tk : String) (max_posts : Nat)
    (t : String) (r : TickerReport)
    (hmem : (t, r) ∈ (get_sentiment_data c tickers lim).1) :
    (r.total_mentions = r.posts.length ∧
     sumCounts r.by_subreddit = r.total_mentions) ∧
    ((scrape_ticker_sentiment s tk max_posts).total_posts
       = (scrape_ticker_sentiment s tk max_posts).all_posts.length ∧
     sumCounts (scrape_ticker_sentiment s tk max_posts).by_subreddit
       = (scrape_ticker_sentiment s tk max_posts).total_posts) := by
  constructor
  · cases hen : c.enabled with
    | false => simp [get_sentiment_data, hen] at hmem
    | true =>
      simp only [get_sentiment_data, hen, Bool.not_true] at hmem
      rcases mem_sentimentLoop c lim tickers [] [] t r (by simpa using hmem) with h | ⟨ticker, hr⟩
      · simp at h
      · subst hr
        exact mkTickerReport_inv _ _
  · exact scrapeLoop_inv s.miner tk max_posts stock_subreddits _ rfl rfl
      (fun _ _ => rfl) (by decide)

/-- A scraper over the always-succeeding demo collaborator. -/
def demoScraper : StockSentimentScraper := ⟨demoMiner⟩

/-- The report `get_sentiment_data demoClient` builds for TSLA. -/
def demoReport : TickerReport :=
  mkTickerReport "TSLA" (search_ticker demoClient "TSLA" none 5).1

/-- Witness for C1 at a concrete client, collaborator and ticker. -/
theorem C1_report_invariants_witness :
    (("TSLA", demoReport) ∈ (get_sentiment_data demoClient ["TSLA"] 5).1) ∧
    ((demoReport.total_mentions = demoReport.posts.length ∧
      sumCounts demoReport.by_subreddit = demoReport.total_mentions) ∧
     ((scrape_ticker_sentiment demoScraper "TSLA" 5).total_posts
        = (scrape_ticker_sentiment demoScraper "TSLA" 5).all_posts.length ∧
      sumCounts (scrape_ticker_sentiment demoScraper "TSLA" 5).by_subreddit
        = (scrape_ticker_sentiment demoScraper "TSLA" 5).total_posts)) :=
  ⟨by decide,
   C1_report_invariants demoClient ["TSLA"] 5 demoScraper "TSLA" 5 "TSLA" demoReport
     (by decide)⟩

/-- If every iterated subreddit raises, the `search_ticker` loop collects
no posts (and, being total, raises nothing). -/
theorem searchLoop_all_err (m : Miner) (ticker : String) (lim : Nat)
    (subs : List String)
    (h : ∀ sub ∈ subs, isErr (m.search_subreddit sub ticker lim "relevance") = true) :
    (searchLoop m ticker lim subs).1 = [] := by
  induction subs with
  | nil => rfl
  | cons sub rest ih =>
    simp only [searchLoop]
    cases hcall : m.search_subreddit sub ticker lim "relevance" with
    | error e => simp [ih (fun s hs => h s (List.mem_cons_of_mem _ hs))]
    | ok posts =>
      have hh := h sub (List.mem_cons_self _ _)
      rw [hcall] at hh
      simp [isErr] at hh

/-- C2: per-request failures are isolated per subreddit: when the
collaborator raises for X but succeeds for Y, `search_ticker` over [X, Y]
returns exactly Y's tagged posts (the methods are total functions, so no
exception escapes); and when the collaborator raises for every subreddit,
`get_sentiment_data ["TSLA"]` maps TSLA to the empty report with
`total_mentions = 0`, `posts = []`, `by_subreddit = {}`. -/
theorem C2_per_subreddit_failure_isolation (c : RedditSentimentClient)
    (hc : c.enabled = true) :
    (∀ (X Y ticker : String) (lim : Nat) (e : String) (psY : List Post),
      c.miner.search_subreddit X ticker lim "relevance" = .error e →
      c.miner.search_subreddit Y ticker lim "relevance" = .ok psY →
      (search_ticker c ticker (some [X, Y]) lim).1
        = psY.map (fun p => tagPost p Y ticker)) ∧
    ((∀ sub query lim srt, isErr (c.miner.search_subreddit sub query lim srt) = true) →
      ∀ lim, (get_sentiment_data c ["TSLA"] lim).1
        = [("TSLA", { ticker := "TSLA", total_mentions := 0, posts := [],
                      by_subreddit := [] })]) := by
  constructor
  · intro X Y ticker lim e psY hX hY
    simp [search_ticker, hc, effectiveSubs, searchLoop, hX, hY]
  · intro herr lim
    have hsearch : (search_ticker c "TSLA" none lim).1 = [] := by
      simp only [search_ticker, hc, Bool.not_true, Bool.false_eq_true,
        if_false, effectiveSubs]
      exact searchLoop_all_err c.miner "TSLA" lim c.subreddits
        (fun s _ => herr s "TSLA" lim "relevance")
    simp [get_sentiment_data, hc, sentimentLoop, hsearch, mkTickerReport,
      countBySubreddit, pySet]

/-- A collaborator that succeeds only for the subreddit "good". -/
def abMiner : Miner :=
  { fetch_subreddit_posts := fun _ _ _ _ => .ok []
    search_subreddit := fun sub _ _ _ =>
      if sub = "good" then .ok [demoPost] else .error "boom"
    scrape_post_details := fun _ => .error "boom" }

/-- An enabled client over `abMiner`. -/
def abClient : RedditSentimentClient :=
  { enabled := true, subreddits := ["stocks"], rate_limit := 30
    min_delay := 2, miner := abMiner }

/-- Witness for C2: a collaborator raising for "bad" but not "good", and
one raising for everything. -/
theorem C2_per_subreddit_failure_isolation_witness :
    (search_ticker abClient "TSLA" (some ["bad", "good"]) 5).1
      = [demoPost].map (fun p => tagPost p "good" "TSLA") ∧
    (get_sentiment_data failClient ["TSLA"] 5).1
      = [("TSLA", { ticker := "TSLA", total_mentions := 0, posts := [],
                    by_subreddit := [] })] :=
  ⟨(C2_per_subreddit_failure_isolation abClient rfl).1 "bad" "good" "TSLA" 5
      "boom" [demoPost] rfl rfl,
   (C2_per_subreddit_failure_isolation failClient rfl).2 (fun _ _ _ _ => rfl) 5⟩

/-- Every post collected by the `search_ticker` loop is the tagged copy of
a post returned by the successful collaborator call of one of the iterated
subreddits. -/
theorem mem_searchLoop (m : Miner) (ticker : String) (lim : Nat)
    (subs : List String) (p : Post)
    (h : p ∈ (searchLoop m ticker lim subs).1) :
    ∃ sub ∈ subs, ∃ posts,
      m.search_subreddit sub ticker lim "relevance" = .ok posts ∧
      ∃ q ∈ posts, p = tagPost q sub ticker := by
  induction subs with
  | nil => simp [searchLoop] at h
  | cons sub rest ih =>
    cases hcall : m.search_subreddit sub ticker lim "relevance" with
    | error e =>
      simp only [searchLoop, hcall] at h
      rw [List.nil_append] at h
      obtain ⟨s, hs, hrest⟩ := ih h
      exact ⟨s, List.mem_cons_of_mem _ hs, hrest⟩
    | ok posts =>
      simp only [searchLoop, hcall] at h
      rcases List.mem_append.mp h with h1 | h1
      · obtain ⟨q, hq, hpq⟩ := List.mem_map.mp h1
        exact ⟨sub, List.mem_cons_self _ _, posts, hcall, q, hq, hpq.symm⟩
      · obtain ⟨s, hs, hrest⟩ := ih h1
        exact ⟨s, List.mem_cons_of_mem _ hs, hrest⟩

/-- C7: every post returned by `search_ticker` carries `ticker_searched`
equal to the requested ticker and `subreddit` equal to the subreddit whose
successful collaborator call produced it. -/
theorem C7_search_ticker_tags_origin (c : RedditSentimentClient) (ticker : String)
    (subs : Option (List String)) (lim : Nat) (p : Post)
    (hmem : p ∈ (search_ticker c ticker subs lim).1) :
    pyGet p "ticker_searched" = some ticker ∧
    ∃ sub ∈ effectiveSubs c subs, ∃ posts,
      c.miner.search_subreddit sub ticker lim "relevance" = .ok posts ∧
      (∃ q ∈ posts, p = tagPost q sub ticker) ∧
      pyGet p "subreddit" = some sub := by
  cases hen : c.enabled with
  | false => simp [search_ticker, hen] at hmem
  | true =>
    simp only [search_ticker, hen, Bool.not_true, Bool.false_eq_true,
      if_false] at hmem
    obtain ⟨sub, hsub, posts, hcall, q, hq, hp⟩ := mem_searchLoop _ _ _ _ _ hmem
    have hts : pyGet p "ticker_searched" = some ticker := by
      rw [hp]
      simp only [tagPost]
      exact pyGet_pySet_same _ _ _
    have hsb : pyGet p "subreddit" = some sub := by
      rw [hp]
      simp only [tagPost]
      rw [pyGet_pySet_ne _ _ _ _ (by decide)]
      exact pyGet_pySet_same _ _ _
    exact ⟨hts, sub, hsub, posts, hcall, ⟨q, hq, hp⟩, hsb⟩

/-- Witness for C7 at a concrete client and post. -/
theorem C7_search_ticker_tags_origin_witness :
    pyGet (tagPost demoPost "stocks" "TSLA") "ticker_searched" = some "TSLA" ∧
    ∃ sub ∈ effectiveSubs demoClient none, ∃ posts,
      demoClient.miner.search_subreddit sub "TSLA" 5 "relevance" = .ok posts ∧
      (∃ q ∈ posts, tagPost demoPost "stocks" "TSLA" = tagPost q sub "TSLA") ∧
      pyGet (tagPost demoPost "stocks" "TSLA") "subreddit" = some sub :=
  C7_search_ticker_tags_origin demoClient "TSLA" none 5
    (tagPost demoPost "stocks" "TSLA") (by decide)

/-- Key membership in the `get_multi_subreddit_posts` loop: a key is bound
exactly when the accumulator already binds it or its own fetch is
nonempty. -/
theorem multiLoop_key (c : RedditSentimentClient) (lim : Nat) (category : String)
    (subs : List String) (acc : List (String × List Post)) (ev : List Event)
    (sub : String) :
    (pyGet (multiLoop c lim category subs acc ev).1 sub).isSome = true ↔
    ((pyGet acc sub).isSome = true ∨
     (sub ∈ subs ∧ (get_subreddit_posts c sub lim category "day").1 ≠ [])) := by
  induction subs generalizing acc ev with
  | nil => simp [multiLoop]
  | cons s rest ih =>
    simp only [multiLoop]
    rw [ih]
    by_cases hs : sub = s
    · subst hs
      by_cases hemp : (get_subreddit_posts c sub lim category "day").1.isEmpty
      · rw [if_pos hemp]
        have hne : (get_subreddit_posts c sub lim category "day").1 = [] :=
          List.isEmpty_iff.mp hemp
        simp [hne, List.mem_cons]
      · rw [if_neg hemp]
        have hne : (get_subreddit_posts c sub lim category "day").1 ≠ [] :=
          fun hn => hemp (by simp [hn])
        simp [pyGet_pySet_same, hne]
    · have hrw : pyGet (if (get_subreddit_posts c s lim category "day").1.isEmpty
          then acc
          else pySet acc s (get_subreddit_posts c s lim category "day").1) sub
          = pyGet acc sub := by
        split
        · rfl
        · exact pyGet_pySet_ne _ _ _ _ hs
      rw [hrw]
      simp [List.mem_cons, hs]

/-- C8: the mapping returned by `get_multi_subreddit_posts` binds a
subreddit exactly when that subreddit was iterated and its fetch yielded
at least one post; zero-post (or failing, hence empty) fetches are omitted
entirely. -/
theorem C8_multi_subreddit_omits_empty (c : RedditSentimentClient)
    (subs : Option (List String)) (lim : Nat) (category sub : String) :
    (pyGet (get_multi_subreddit_posts c subs lim category).1 sub).isSome = true ↔
    (sub ∈ effectiveSubs c subs ∧
     (get_subreddit_posts c sub lim category "day").1 ≠ []) := by
  cases hen : c.enabled with
  | false => simp [get_multi_subreddit_posts, hen, pyGet, get_subreddit_posts]
  | true =>
    simp only [get_multi_subreddit_posts, hen, Bool.not_true, Bool.false_eq_true,
      if_false]
    rw [multiLoop_key]
    simp [pyGet]

/-- A collaborator post that already carries a `subreddit` field. -/
def preTaggedPost : Post := [("subreddit", "news"), ("title", "x")]

/-- A collaborator whose search returns `preTaggedPost`. -/
def preMiner : Miner :=
  { fetch_subreddit_posts := fun _ _ _ _ => .ok []
    search_subreddit := fun _ _ _ _ => .ok [preTaggedPost]
    scrape_post_details := fun _ => .error "boom" }

/-- An enabled client over `preMiner`. -/
def preClient : RedditSentimentClient :=
  { enabled := true, subreddits := ["stocks"], rate_limit := 30
    min_delay := 2, miner := preMiner }

/-- Counterexample to C4 as stated: a collaborator post that already has a
`subreddit` field (value "news") comes back from `search_ticker` with that
field overwritten to the queried subreddit "stocks" — the original value
is not preserved. -/
theorem C4_counterexample :
    pyGet preTaggedPost "subreddit" = some "news" ∧
    (search_ticker preClient "TSLA" none 5).1
      = [[("subreddit", "stocks"), ("title", "x"), ("ticker_searched", "TSLA")]] ∧
    ((search_ticker preClient "TSLA" none 5).1.map fun p => pyGet p "subreddit")
      = [some "stocks"] := by
  refine ⟨rfl, ?_, ?_⟩ <;> rfl

/-- C4 amended: the tagging of `search_ticker` (resp.
`scrape_ticker_sentiment`) preserves every collaborator field whose key is
neither `subreddit` nor `ticker_searched` (resp. `ticker`), and sets those
two keys to the request context, overwriting any preexisting values. -/
theorem C4_tagging_preserves_other_fields (p : Post) (sub ticker k : String) :
    (k ≠ "subreddit" → k ≠ "ticker_searched" →
      pyGet (tagPost p sub ticker) k = pyGet p k) ∧
    (k ≠ "subreddit" → k ≠ "ticker" →
      pyGet (scrapeTagPost p sub ticker) k = pyGet p k) ∧
    pyGet (tagPost p sub ticker) "subreddit" = some sub ∧
    pyGet (tagPost p sub ticker) "ticker_searched" = some ticker ∧
    pyGet (scrapeTagPost p sub ticker) "subreddit" = some sub ∧
    pyGet (scrapeTagPost p sub ticker) "ticker" = some ticker := by
  refine ⟨?_, ?_, ?_, ?_, ?_, ?_⟩
  · intro h1 h2
    simp only [tagPost]
    rw [pyGet_pySet_ne _ _ _ _ h2, pyGet_pySet_ne _ _ _ _ h1]
  · intro h1 h2
    simp only [scrapeTagPost]
    rw [pyGet_pySet_ne _ _ _ _ h2, pyGet_pySet_ne _ _ _ _ h1]
  · simp only [tagPost]
    rw [pyGet_pySet_ne _ _ _ _ (by decide)]
    exact pyGet_pySet_same _ _ _
  · exact pyGet_pySet_same _ _ _
  · simp only [scrapeTagPost]
    rw [pyGet_pySet_ne _ _ _ _ (by decide)]
    exact pyGet_pySet_same _ _ _
  · exact pyGet_pySet_same _ _ _

/-- Witness for the amended C4 at the key "title". -/
theorem C4_tagging_preserves_other_fields_witness :
    pyGet (tagPost preTaggedPost "stocks" "TSLA") "title"
      = pyGet preTaggedPost "title" ∧
    pyGet (scrapeTagPost preTaggedPost "stocks" "TSLA") "title"
      = pyGet preTaggedPost "title" :=
  ⟨(C4_tagging_preserves_other_fields preTaggedPost "stocks" "TSLA" "title").1
      (by decide) (by decide),
   (C4_tagging_preserves_other_fields preTaggedPost "stocks" "TSLA" "title").2.1
      (by decide) (by decide)⟩

/-- Counterexample to C5 as stated: a collaborator call that raises is
issued but skips the rate-limit delay, so the delay count falls short of
the call count. -/
theorem C5_counterexample :
    numCalls (get_subreddit_posts failClient "stocks" 5 "hot" "day").2 = 1 ∧
    numDelays (get_subreddit_posts failClient "stocks" 5 "hot" "day").2 = 0 := by
  exact ⟨rfl, rfl⟩

/-- `get_subreddit_posts` sleeps exactly once per successful collaborator
call of its execution. -/
theorem get_subreddit_posts_delays (c : RedditSentimentClient) (sub : String)
    (lim : Nat) (category time_filter : String) :
    numDelays (get_subreddit_posts c sub lim category time_filter).2
      = numOkCalls (get_subreddit_posts c sub lim category time_filter).2 := by
  cases hen : c.enabled with
  | false => simp [get_subreddit_posts, hen, numDelays_nil, numOkCalls_nil]
  | true =>
    simp only [get_subreddit_posts, hen, Bool.not_true, Bool.false_eq_true, if_false]
    cases c.miner.fetch_subreddit_posts sub lim category time_filter <;> rfl

/-- The `search_ticker` loop sleeps exactly once per successful
collaborator call of its execution. -/
theorem searchLoop_delays (m : Miner) (ticker : String) (lim : Nat)
    (subs : List String) :
    numDelays (searchLoop m ticker lim subs).2
      = numOkCalls (searchLoop m ticker lim subs).2 := by
  induction subs with
  | nil => rfl
  | cons sub rest ih =>
    simp only [searchLoop]
    cases m.search_subreddit sub ticker lim "relevance" <;>
      simp [numDelays_append, numOkCalls_append, numDelays_cons_collab,
        numDelays_cons_delay, numDelays_nil, numOkCalls_cons_collab_true,
        numOkCalls_cons_collab_false, numOkCalls_cons_delay, numOkCalls_nil, ih]

/-- The `get_multi_subreddit_posts` loop preserves delay/successful-call
balance of its event accumulator. -/
theorem multiLoop_delays (c : RedditSentimentClient) (lim : Nat)
    (category : String) (subs : List String) (acc : List (String × List Post))
    (ev : List Event) (hev : numDelays ev = numOkCalls ev) :
    numDelays (multiLoop c lim category subs acc ev).2
      = numOkCalls (multiLoop c lim category subs acc ev).2 := by
  induction subs generalizing acc ev with
  | nil => exact hev
  | cons s rest ih =>
    simp only [multiLoop]
    apply ih
    rw [numDelays_append, numOkCalls_append, hev, get_subreddit_posts_delays]

/-- The `get_sentiment_data` loop preserves delay/successful-call balance
of its event accumulator. -/
theorem sentimentLoop_delays (c : RedditSentimentClient) (lim : Nat)
    (tickers : List String) (acc : List (String × TickerReport))
    (ev : List Event) (hev : numDelays ev = numOkCalls ev) :
    numDelays (sentimentLoop c lim tickers acc ev).2
      = numOkCalls (sentimentLoop c lim tickers acc ev).2 := by
  induction tickers generalizing acc ev with
  | nil => exact hev
  | cons t rest ih =>
    simp only [sentimentLoop]
    apply ih
    rw [numDelays_append, numOkCalls_append, hev]
    cases hen : c.enabled with
    | false => simp [search_ticker, hen, numDelays_nil, numOkCalls_nil]
    | true =>
      simp only [search_ticker, hen, Bool.not_true, Bool.false_eq_true, if_false]
      rw [searchLoop_delays]

/-- C5 amended: in every execution of every public method, the number of
rate-limit delay invocations equals the number of collaborator calls that
return successfully; a call that raises is issued without a following
delay (as `C5_counterexample` shows, so "calls issued" only matches when
no call fails). -/
theorem C5_one_delay_per_successful_call (c : RedditSentimentClient)
    (sub permalink category time_filter ticker : String) (lim : Nat)
    (subs : Option (List String)) (tickers : List String) :
    numDelays (get_subreddit_posts c sub lim category time_filter).2
      = numOkCalls (get_subreddit_posts c sub lim category time_filter).2 ∧
    numDelays (search_ticker c ticker subs lim).2
      = numOkCalls (search_ticker c ticker subs lim).2 ∧
    numDelays (get_post_details c permalink).2
      = numOkCalls (get_post_details c permalink).2 ∧
    numDelays (get_multi_subreddit_posts c subs lim category).2
      = numOkCalls (get_multi_subreddit_posts c subs lim category).2 ∧
    numDelays (get_sentiment_data c tickers lim).2
      = numOkCalls (get_sentiment_data c tickers lim).2 := by
  refine ⟨get_subreddit_posts_delays c sub lim category time_filter, ?_, ?_, ?_, ?_⟩
  · cases hen : c.enabled with
    | false => simp [search_ticker, hen, numDelays_nil, numOkCalls_nil]
    | true =>
      simp only [search_ticker, hen, Bool.not_true, Bool.false_eq_true, if_false]
      exact searchLoop_delays _ _ _ _
  · cases hen : c.enabled with
    | false => simp [get_post_details, hen, numDelays_nil, numOkCalls_nil]
    | true =>
      simp only [get_post_details, hen, Bool.not_true, Bool.false_eq_true, if_false]
      cases c.miner.scrape_post_details permalink <;> rfl
  · cases hen : c.enabled with
    | false => simp [get_multi_subreddit_posts, hen, numDelays_nil, numOkCalls_nil]
    | true =>
      simp only [get_multi_subreddit_posts, hen, Bool.not_true,
        Bool.false_eq_true, if_false]
      exact multiLoop_delays _ _ _ _ _ _ rfl
  · cases hen : c.enabled with
    | false => simp [get_sentiment_data, hen, numDelays_nil, numOkCalls_nil]
    | true =>
      simp only [get_sentiment_data, hen, Bool.not_true,
        Bool.false_eq_true, if_false]
      exact sentimentLoop_delays _ _ _ _ _ rfl

end StockAgent
